import Mathlib

/-
Verification development for the cognito backend (src/backend/app).

This file gives a shallow embedding, in Lean 4, of the pieces of the backend
that the verified claims are about:

  * app/utils/timestamp.py   : parse_iso_timestamp, compare_timestamps,
                               to_iso_string (over a model of Python datetime)
  * app/services/sync.py     : SyncService.process_pending_changes,
                               _process_entry_change, _process_goal_change,
                               _should_apply_update, _parse_conversations
  * app/repositories/entry_repo.py and goal_repo.py : the CRUD calls the
                               sync service performs
  * app/services/chat.py     : ChatService._call_llm_with_retry and the retry
                               constants
  * app/services/llm.py      : LLMRouter.generate / chat / refine

Modelling conventions:

  * Python datetime objects are modelled by the structure PyDatetime below;
    a None tzinfo is modelled by utcoffset = none, a fixed-offset tzinfo by
    utcoffset = some minutes.  CPython compares two aware datetimes with
    equal offsets field by field, and otherwise by the absolute instant;
    PyDatetime.pyLe mirrors that.
  * Machine floats appearing in the code (retry backoff 1.0/2.0, relevance
    scores) take only values that are exact in both IEEE 754 and Rat, so they
    are modelled as Rat.
  * Database rows live in the structure Db; SQL INSERT/UPDATE/DELETE become
    pure functions on Db.  uuid4() for entry_versions rows is modelled by a
    fresh counter carried in Db, and uuid4() for conversations parsed without
    an id by a per-call counter; the randomness of uuid4 is not observable in
    any claim.
  * datetime.fromisoformat is embedded for the documented core grammar
    YYYY-MM-DD[*HH[:MM[:SS[.f+]]]][(+|-)HH[:MM] | (+|-)HHMM], a faithful
    subset of what CPython accepts; universal statements quantify over
    strings this embedded parser accepts.
  * Fallible Python code (raised exceptions) returns Except String.
-/

namespace Cognito

/-! ## Model of Python datetime -/

/-- Model of a Python `datetime.datetime`: calendar fields plus an optional
fixed UTC offset in minutes (`none` models a naive datetime). -/
structure PyDatetime where
  year : Nat
  month : Nat
  day : Nat
  hour : Nat := 0
  minute : Nat := 0
  second : Nat := 0
  microsecond : Nat := 0
  utcoffset : Option Int := none
deriving DecidableEq, Repr

/-- Days from civil date (proleptic Gregorian, epoch 1970-01-01), the
arithmetic underlying Python date.toordinal up to the epoch shift. -/
def daysFromCivil (y m d : Int) : Int :=
  let yy := if m ≤ 2 then y - 1 else y
  let era := Int.fdiv yy 400
  let yoe := yy - era * 400
  let mp := Int.fmod (m + 9) 12
  let doy := Int.fdiv (153 * mp + 2) 5 + d - 1
  let doe := yoe * 365 + Int.fdiv yoe 4 - Int.fdiv yoe 100 + doy
  era * 146097 + doe - 719468

/-- Civil date from days since 1970-01-01 (inverse of daysFromCivil). -/
def civilFromDays (z : Int) : Int × Int × Int :=
  let zz := z + 719468
  let era := Int.fdiv zz 146097
  let doe := zz - era * 146097
  let yoe := Int.fdiv (doe - Int.fdiv doe 1460 + Int.fdiv doe 36524 - Int.fdiv doe 146096) 365
  let y := yoe + era * 400
  let doy := doe - (365 * yoe + Int.fdiv yoe 4 - Int.fdiv yoe 100)
  let mp := Int.fdiv (5 * doy + 2) 153
  let d := doy - Int.fdiv (153 * mp + 2) 5 + 1
  let m := if mp < 10 then mp + 3 else mp - 9
  (if m ≤ 2 then y + 1 else y, m, d)

/-- Absolute instant of a datetime in microseconds since the epoch, after
subtracting the UTC offset (0 for naive). -/
def PyDatetime.instantUsec (dt : PyDatetime) : Int :=
  (daysFromCivil (dt.year : Int) (dt.month : Int) (dt.day : Int) * 86400
      + (dt.hour : Int) * 3600 + (dt.minute : Int) * 60 + (dt.second : Int)
      - dt.utcoffset.getD 0 * 60) * 1000000
    + (dt.microsecond : Int)

/-- The UTC datetime denoting a given instant (microseconds since epoch). -/
def fromInstantUTC (t : Int) : PyDatetime :=
  let days := Int.fdiv t 86400000000
  let rem := (t - days * 86400000000).toNat
  let c := civilFromDays days
  { year := c.1.toNat
    month := c.2.1.toNat
    day := c.2.2.toNat
    hour := rem / 3600000000
    minute := rem / 60000000 % 60
    second := rem / 1000000 % 60
    microsecond := rem % 1000000
    utcoffset := some 0 }

/-- Python `dt.astimezone(timezone.utc)` for an aware datetime: identity on
the fields when the offset is already 0, otherwise recompute the fields from
the absolute instant.  (Our embedded code never calls it on a naive value;
for totality that case returns the input.) -/
def astimezoneUTC (dt : PyDatetime) : PyDatetime :=
  match dt.utcoffset with
  | some o => if o = 0 then dt else fromInstantUTC dt.instantUsec
  | none => dt

/-- CPython compares two datetimes with equal offsets field by field; this is
that field-tuple strict comparison (offsets ignored by the caller). -/
def fieldsCmpLt (a b : PyDatetime) : Bool :=
  if a.year ≠ b.year then a.year < b.year
  else if a.month ≠ b.month then a.month < b.month
  else if a.day ≠ b.day then a.day < b.day
  else if a.hour ≠ b.hour then a.hour < b.hour
  else if a.minute ≠ b.minute then a.minute < b.minute
  else if a.second ≠ b.second then a.second < b.second
  else a.microsecond < b.microsecond

/-- Python `a <= b` on datetimes: equal offsets compare the field tuples,
different offsets compare the absolute instants (CPython datetime._cmp). -/
def PyDatetime.pyLe (a b : PyDatetime) : Bool :=
  if a.utcoffset = b.utcoffset then !(fieldsCmpLt b a)
  else a.instantUsec ≤ b.instantUsec

/-- Python `a >= b` on datetimes. -/
def PyDatetime.pyGe (a b : PyDatetime) : Bool :=
  PyDatetime.pyLe b a

/-! ## isoformat rendering -/

/-- The ASCII digit character for `d % 10`. -/
def digitChar (d : Nat) : Char := Char.ofNat (48 + d % 10)

/-- Two-digit zero-padded decimal rendering. -/
def pad2 (n : Nat) : List Char := [digitChar (n / 10), digitChar n]

/-- Four-digit zero-padded decimal rendering. -/
def pad4 (n : Nat) : List Char := pad2 (n / 100) ++ pad2 (n % 100)

/-- Six-digit zero-padded decimal rendering (microseconds). -/
def pad6 (n : Nat) : List Char := pad2 (n / 10000) ++ pad2 (n / 100 % 100) ++ pad2 (n % 100)

/-- The `YYYY-MM-DDTHH:MM:SS` part of Python datetime.isoformat. -/
def isoCoreChars (dt : PyDatetime) : List Char :=
  pad4 dt.year ++ '-' :: pad2 dt.month ++ '-' :: pad2 dt.day
    ++ 'T' :: pad2 dt.hour ++ ':' :: pad2 dt.minute ++ ':' :: pad2 dt.second

/-- The offset suffix of isoformat for a fixed offset in minutes. -/
def isoOffsetChars (o : Int) : List Char :=
  if 0 ≤ o then '+' :: pad2 (o.toNat / 60) ++ ':' :: pad2 (o.toNat % 60)
  else '-' :: pad2 ((-o).toNat / 60) ++ ':' :: pad2 ((-o).toNat % 60)

/-- The character list of Python `dt.isoformat()`: core, fractional seconds
only when nonzero, offset only when aware. -/
def isoChars (dt : PyDatetime) : List Char :=
  isoCoreChars dt
    ++ (if dt.microsecond ≠ 0 then '.' :: pad6 dt.microsecond else [])
    ++ (match dt.utcoffset with
        | none => []
        | some o => isoOffsetChars o)

/-- Python `dt.isoformat()` as a string. -/
def PyDatetime.isoformat (dt : PyDatetime) : String := ⟨isoChars dt⟩

/-- app/utils/timestamp.py to_iso_string on a non-None datetime: treat naive
as UTC, convert to UTC, format. -/
def toIsoStringSome (dt : PyDatetime) : String :=
  let aware := if dt.utcoffset = none then { dt with utcoffset := some 0 } else dt
  (astimezoneUTC aware).isoformat

/-- app/utils/timestamp.py to_iso_string (None passes through). -/
def to_iso_string : Option PyDatetime → Option String
  | none => none
  | some dt => some (toIsoStringSome dt)

/-! ## fromisoformat parsing -/

/-- Numeric value of an ASCII digit. -/
def digVal (c : Char) : Option Nat :=
  if c.isDigit then some (c.toNat - 48) else none

/-- Read exactly `k` decimal digits, most significant first. -/
def readDigits : Nat → Nat → List Char → Option (Nat × List Char)
  | 0, acc, cs => some (acc, cs)
  | _ + 1, _, [] => none
  | k + 1, acc, c :: cs =>
    match digVal c with
    | some d => readDigits k (acc * 10 + d) cs
    | none => none

/-- Consume one expected character. -/
def expectChar (c : Char) : List Char → Option (List Char)
  | [] => none
  | x :: rest => if x = c then some rest else none

/-- Split a leading run of digits off a character list. -/
def spanDigits : List Char → List Nat × List Char
  | [] => ([], [])
  | c :: cs =>
    match digVal c with
    | some d =>
      let r := spanDigits cs
      (d :: r.1, r.2)
    | none => ([], c :: cs)

/-- Microseconds from a fraction digit list: first six digits scaled (CPython
truncates digits beyond six). -/
def fracToMicro (ds : List Nat) : Nat :=
  (ds.take 6).foldl (fun acc d => acc * 10 + d) 0 * 10 ^ (6 - min ds.length 6)

/-- True for leap years (Gregorian). -/
def isLeapYear (y : Nat) : Bool :=
  y % 4 = 0 && (y % 100 ≠ 0 || y % 400 = 0)

/-- Length of a month, as validated by Python date construction. -/
def daysInMonth (y m : Nat) : Nat :=
  if m = 2 then (if isLeapYear y then 29 else 28)
  else if m = 4 ∨ m = 6 ∨ m = 9 ∨ m = 11 then 30
  else 31

/-- Parse the optional fixed-offset suffix (+|-)HH[:MM] or (+|-)HHMM; empty
input means no offset.  Returns the offset in minutes. -/
def parseOffset : List Char → Option (Option Int)
  | [] => some none
  | sign :: rest =>
    if sign = '+' ∨ sign = '-' then
      match readDigits 2 0 rest with
      | none => none
      | some (hh, rest2) =>
        let build : Nat → Nat → Option (Option Int) := fun h m =>
          if h ≤ 23 ∧ m ≤ 59 then
            let total : Int := (h : Int) * 60 + (m : Int)
            some (some (if sign = '-' then -total else total))
          else none
        match rest2 with
        | [] => build hh 0
        | ':' :: rest3 =>
          match readDigits 2 0 rest3 with
          | some (mm, []) => build hh mm
          | _ => none
        | _ =>
          match readDigits 2 0 rest2 with
          | some (mm, []) => build hh mm
          | _ => none
    else none

/-- Parse the time-of-day part HH[:MM[:SS[.digits]]] followed by an optional
offset, consuming the whole input. -/
def parseTimeAndOffset (cs : List Char) :
    Option (Nat × Nat × Nat × Nat × Option Int) := do
  let (hh, r1) ← readDigits 2 0 cs
  if hh > 23 then none else
  match r1 with
  | ':' :: r2 => do
    let (mi, r3) ← readDigits 2 0 r2
    if mi > 59 then none else
    match r3 with
    | ':' :: r4 => do
      let (ss, r5) ← readDigits 2 0 r4
      if ss > 59 then none else
      match r5 with
      | '.' :: r6 =>
        let (ds, r7) := spanDigits r6
        if ds.isEmpty then none
        else do
          let off ← parseOffset r7
          some (hh, mi, ss, fracToMicro ds, off)
      | _ => do
        let off ← parseOffset r5
        some (hh, mi, ss, 0, off)
    | _ => do
      let off ← parseOffset r3
      some (hh, mi, 0, 0, off)
  | _ => do
    let off ← parseOffset r1
    some (hh, 0, 0, 0, off)

/-- Embedded core of Python datetime.fromisoformat:
YYYY-MM-DD, optionally a single separator character and a time with optional
fraction and offset.  Field ranges are validated as CPython does. -/
def fromisoformat (s : String) : Option PyDatetime := do
  let cs := s.data
  let (y, r1) ← readDigits 4 0 cs
  let r2 ← expectChar '-' r1
  let (m, r3) ← readDigits 2 0 r2
  let r4 ← expectChar '-' r3
  let (d, r5) ← readDigits 2 0 r4
  if y < 1 ∨ m < 1 ∨ m > 12 ∨ d < 1 ∨ d > daysInMonth y m then none
  else
    match r5 with
    | [] => some { year := y, month := m, day := d }
    | _ :: r6 => do
      let (hh, mi, ss, us, off) ← parseTimeAndOffset r6
      some { year := y, month := m, day := d, hour := hh, minute := mi,
             second := ss, microsecond := us, utcoffset := off }

/-! ## app/utils/timestamp.py -/

deriving instance DecidableEq for Except

/-- Python `ts.replace("Z", "+00:00")` character by character (the pattern is
a single character, so occurrences cannot overlap). -/
def replaceZChars : List Char → List Char
  | [] => []
  | c :: cs =>
    if c = 'Z' then '+' :: '0' :: '0' :: ':' :: '0' :: '0' :: replaceZChars cs
    else c :: replaceZChars cs

/-- parse_iso_timestamp: replace Z with +00:00, parse, treat naive as UTC,
convert to UTC.  Errors model the raised ValueError. -/
def parse_iso_timestamp (ts : String) : Except String PyDatetime :=
  let ts2 : String := ⟨replaceZChars ts.data⟩
  match fromisoformat ts2 with
  | none => Except.error ("Cannot parse timestamp: " ++ ts2)
  | some dt =>
    let dt2 := if dt.utcoffset = none then { dt with utcoffset := some 0 } else dt
    Except.ok (astimezoneUTC dt2)

/-- The server-side normalization step of compare_timestamps: a naive
datetime is stamped as UTC, an aware one converted to UTC. -/
def serverUtcOf (serverDt : PyDatetime) : PyDatetime :=
  if serverDt.utcoffset = none then { serverDt with utcoffset := some 0 }
  else astimezoneUTC serverDt

/-- compare_timestamps: True when the client timestamp is falsy (None or
empty) or unparseable, otherwise parse the client timestamp, normalize the
server datetime to UTC, and test client >= server. -/
def compare_timestamps (clientTs : Option String) (serverDt : PyDatetime) : Bool :=
  match clientTs with
  | none => true
  | some s =>
    if s = "" then true
    else
      match parse_iso_timestamp s with
      | Except.error _ => true
      | Except.ok clientDt => clientDt.pyGe (serverUtcOf serverDt)

/-- SyncService._should_apply_update: last-write-wins test against the
existing entity, delegating to compare_timestamps on its updated_at. -/
def should_apply_update (existingUpdatedAt : PyDatetime) (clientTimestamp : Option String) : Bool :=
  compare_timestamps clientTimestamp existingUpdatedAt

/-! ## UUID strings -/

/-- Hexadecimal digit test. -/
def isHexDig (c : Char) : Bool :=
  c.isDigit || ('a' ≤ c && c ≤ 'f') || ('A' ≤ c && c ≤ 'F')

/-- Lowercase a hexadecimal digit. -/
def lowerHex (c : Char) : Char :=
  if 'A' ≤ c && c ≤ 'F' then Char.ofNat (c.toNat + 32) else c

/-- Python uuid.UUID(s) restricted to its core acceptance (dashes removed
anywhere, 32 hex digits; the urn:/brace forms are outside our scope), and
then str(...) of the result: the canonical lowercase dashed form.  none
models the raised ValueError. -/
def pyUUID (s : String) : Option String :=
  let hs := s.data.filter (fun c => c ≠ '-')
  if hs.length = 32 && hs.all isHexDig then
    let l := hs.map lowerHex
    some ⟨l.take 8 ++ '-' :: (l.drop 8).take 4 ++ '-' :: (l.drop 12).take 4
          ++ '-' :: (l.drop 16).take 4 ++ '-' :: l.drop 20⟩
  else none

/-! ## Data model (app/models, DuckDB rows) -/

/-- app/models/entry.py Message (role is validated as a pydantic Literal). -/
structure Message where
  role : String
  content : String
  timestamp : PyDatetime
deriving DecidableEq, Repr

/-- app/models/entry.py Conversation; UUIDs are carried as their canonical
string form. -/
structure Conversation where
  id : String
  startedAt : PyDatetime
  messages : List Message
  promptSource : String
  notificationId : Option String
deriving DecidableEq, Repr

/-- A row of the entries table, fields as selected by entry_repo queries.
The conversations JSON column is carried in parsed form (the JSON round trip
through json.dumps/json.loads is modelled as the identity). -/
structure EntryRow where
  id : String
  userId : String
  date : String
  conversations : List Conversation
  refinedOutput : String
  relevanceScore : Rat
  lastInteractedAt : Option PyDatetime
  interactionCount : Int
  status : String
  pendingRefine : Bool
  refineStatus : String
  refineError : Option String
  version : Int
  createdAt : PyDatetime
  updatedAt : PyDatetime
deriving DecidableEq, Repr

/-- A row of the entry_versions table.  uuid4() primary keys are modelled by
a fresh counter carried in Db. -/
structure VersionRow where
  rowId : Nat
  entryId : String
  version : Int
  contentSnapshot : String
  createdAt : PyDatetime
deriving DecidableEq, Repr

/-- A row of the goals table. -/
structure GoalRow where
  id : String
  userId : String
  category : String
  description : String
  active : Bool
  createdAt : PyDatetime
  updatedAt : PyDatetime
deriving DecidableEq, Repr

/-- The database state touched by the sync service. -/
structure Db where
  entries : List EntryRow
  entryVersions : List VersionRow
  goals : List GoalRow
  nextVersionRowId : Nat
deriving DecidableEq, Repr

/-- app/models/entry.py EntryCreate. -/
structure EntryCreate where
  date : String
  conversations : List Conversation := []
  refinedOutput : String := ""
deriving DecidableEq, Repr

/-- app/models/entry.py EntryUpdate (partial update; status and
refine_status are validated Literals where constructed). -/
structure EntryUpdate where
  conversations : Option (List Conversation) := none
  refinedOutput : Option String := none
  relevanceScore : Option Rat := none
  status : Option String := none
  pendingRefine : Option Bool := none
  refineStatus : Option String := none
  refineError : Option String := none
deriving DecidableEq, Repr

/-- app/models/goal.py GoalCreate. -/
structure GoalCreate where
  category : String
  description : String
deriving DecidableEq, Repr

/-- app/models/goal.py GoalUpdate. -/
structure GoalUpdate where
  category : Option String := none
  description : Option String := none
  active : Option Bool := none
deriving DecidableEq, Repr

/-! ## app/repositories/entry_repo.py -/

/-- get_entry_by_id: SELECT ... WHERE id = ? AND user_id = ? (first row). -/
def get_entry_by_id (db : Db) (entryId userId : String) : Option EntryRow :=
  db.entries.find? (fun r => r.id == entryId && r.userId == userId)

/-- create_entry: INSERT with the defaults the repository supplies
(relevance 1.0, interaction_count 0, status active, version 1, timestamps
now). -/
def create_entry (db : Db) (entryData : EntryCreate) (userId entryId : String)
    (now : PyDatetime) : Db :=
  { db with entries := db.entries ++
      [{ id := entryId
         userId := userId
         date := entryData.date
         conversations := entryData.conversations
         refinedOutput := entryData.refinedOutput
         relevanceScore := 1
         lastInteractedAt := some now
         interactionCount := 0
         status := "active"
         pendingRefine := false
         refineStatus := "idle"
         refineError := none
         version := 1
         createdAt := now
         updatedAt := now }] }

/-- create_entry_version: INSERT a snapshot row (uuid4 key modelled by the
fresh counter). -/
def create_entry_version (db : Db) (entryId : String) (version : Int)
    (contentSnapshot : String) (now : PyDatetime) : Db :=
  { db with
    entryVersions := db.entryVersions ++
      [{ rowId := db.nextVersionRowId, entryId := entryId, version := version,
         contentSnapshot := contentSnapshot, createdAt := now }]
    nextVersionRowId := db.nextVersionRowId + 1 }

/-- The SET clause of update_entry applied to one row: provided fields
overwrite, version always increments, updated_at is always refreshed. -/
def applyEntryUpdate (r : EntryRow) (u : EntryUpdate) (now : PyDatetime) : EntryRow :=
  { r with
    conversations := u.conversations.getD r.conversations
    refinedOutput := u.refinedOutput.getD r.refinedOutput
    relevanceScore := u.relevanceScore.getD r.relevanceScore
    status := u.status.getD r.status
    pendingRefine := u.pendingRefine.getD r.pendingRefine
    refineStatus := u.refineStatus.getD r.refineStatus
    refineError := (match u.refineError with
                    | some e => some e
                    | none => r.refineError)
    version := r.version + 1
    updatedAt := now }

/-- update_entry: read the current row, snapshot it into entry_versions,
then UPDATE ... WHERE id = ? AND user_id = ?.  Returns the updated row as
the source does (callers in sync ignore it). -/
def update_entry (db : Db) (entryId userId : String) (u : EntryUpdate)
    (now : PyDatetime) : Option EntryRow × Db :=
  match get_entry_by_id db entryId userId with
  | none => (none, db)
  | some current =>
    let db1 := create_entry_version db entryId current.version current.refinedOutput now
    let db2 := { db1 with entries :=
        (db1.entries.map (fun r =>
          if r.id == entryId && r.userId == userId then applyEntryUpdate r u now else r)) }
    (get_entry_by_id db2 entryId userId, db2)

/-! ## app/repositories/goal_repo.py -/

/-- get_goal_by_id: SELECT * FROM goals WHERE id = ? AND user_id = ?. -/
def get_goal_by_id (db : Db) (goalId userId : String) : Option GoalRow :=
  db.goals.find? (fun g => g.id == goalId && g.userId == userId)

/-- create_goal: INSERT with active = TRUE and timestamps now. -/
def create_goal (db : Db) (goalData : GoalCreate) (userId goalId : String)
    (now : PyDatetime) : Db :=
  { db with goals := db.goals ++
      [{ id := goalId, userId := userId, category := goalData.category,
         description := goalData.description, active := true,
         createdAt := now, updatedAt := now }] }

/-- update_goal: dynamic SET of the provided fields; when no field is
provided the row is returned unchanged (no updated_at refresh). -/
def update_goal (db : Db) (goalId userId : String) (u : GoalUpdate)
    (now : PyDatetime) : Option GoalRow × Db :=
  match get_goal_by_id db goalId userId with
  | none => (none, db)
  | some existing =>
    if u.category = none ∧ u.description = none ∧ u.active = none then
      (some existing, db)
    else
      let db2 := { db with goals := db.goals.map (fun g =>
        if g.id == goalId && g.userId == userId then
          { g with category := u.category.getD g.category,
                   description := u.description.getD g.description,
                   active := u.active.getD g.active,
                   updatedAt := now }
        else g) }
      (get_goal_by_id db2 goalId userId, db2)

/-- delete_goal: soft delete (active = FALSE, default) or hard DELETE. -/
def delete_goal (db : Db) (goalId userId : String) (softDelete : Bool)
    (now : PyDatetime) : Bool × Db :=
  match get_goal_by_id db goalId userId with
  | none => (false, db)
  | some _ =>
    if softDelete then
      (true, { db with goals := db.goals.map (fun g =>
        if g.id == goalId && g.userId == userId then
          { g with active := false, updatedAt := now }
        else g) })
    else
      (true, { db with goals := db.goals.filter (fun g =>
        !(g.id == goalId && g.userId == userId)) })

/-! ## Sync payloads (app/routers/sync.py PendingChange, as dicts) -/

/-- A message dict inside a pending change payload; an absent key is none. -/
structure MsgJson where
  role : Option String := none
  content : Option String := none
  timestamp : Option String := none
deriving DecidableEq, Repr

/-- A conversation dict inside a pending change payload. -/
structure ConvJson where
  id : Option String := none
  startedAt : Option String := none
  messages : List MsgJson := []
  promptSource : Option String := none
  notificationId : Option String := none
deriving DecidableEq, Repr

/-- The keys of a pending change `data` dict that the sync service reads
(values carried well typed; an absent key is none). -/
structure ChangeData where
  date : Option String := none
  conversations : Option (List ConvJson) := none
  refinedOutput : Option String := none
  relevanceScore : Option Rat := none
  status : Option String := none
  category : Option String := none
  description : Option String := none
  active : Option Bool := none
deriving DecidableEq, Repr

/-- A pending change dict as iterated by process_pending_changes; an absent
key is none (via the router every change has id, type, entity, entity_id and
timestamp present). -/
structure Change where
  id : Option String := none
  type : Option String := none
  entity : Option String := none
  entityId : Option String := none
  data : ChangeData := {}
  timestamp : Option String := none
deriving DecidableEq, Repr

/-! ## SyncService._parse_conversations (app/services/sync.py) -/

/-- Build one Message from a message dict: the timestamp argument is parsed
first (defaulting to now.isoformat()), then pydantic validates the role
Literal.  Errors propagate as the raised exception. -/
def parseMessageJson (now : PyDatetime) (m : MsgJson) : Except String Message := do
  let ts ← parse_iso_timestamp (m.timestamp.getD now.isoformat)
  let role := m.role.getD "user"
  if role = "user" ∨ role = "assistant" then
    Except.ok { role := role, content := m.content.getD "", timestamp := ts }
  else Except.error "validation error: Message.role"

/-- Build one Conversation from a conversation dict, in source evaluation
order: messages loop, then the constructor arguments (id via UUID, started_at
via parse_iso_timestamp, notification_id via UUID when truthy), then pydantic
validation of prompt_source.  A missing id receives a fresh uuid4, modelled
by the counter. -/
def parseConvJson (now : PyDatetime) (fresh : Nat) (c : ConvJson) :
    Except String (Conversation × Nat) := do
  let msgs ← c.messages.mapM (parseMessageJson now)
  let idAndFresh ← (match c.id with
    | some s =>
      match pyUUID s with
      | some u => Except.ok (u, fresh)
      | none => Except.error "badly formed hexadecimal UUID string"
    | none => Except.ok ("uuid4-" ++ toString fresh, fresh + 1))
  let sa ← parse_iso_timestamp (c.startedAt.getD now.isoformat)
  let nid ← (match c.notificationId with
    | some s =>
      if s = "" then Except.ok none
      else
        match pyUUID s with
        | some u => Except.ok (some u)
        | none => Except.error "badly formed hexadecimal UUID string"
    | none => Except.ok none)
  let ps := c.promptSource.getD "user"
  if ps = "user" ∨ ps = "notification" ∨ ps = "continuation" then
    Except.ok ({ id := idAndFresh.1, startedAt := sa, messages := msgs,
                 promptSource := ps, notificationId := nid }, idAndFresh.2)
  else Except.error "validation error: Conversation.prompt_source"

/-- The loop body of _parse_conversations over the dict list, threading the
fresh-uuid counter. -/
def parseConversationsGo (now : PyDatetime) :
    List ConvJson → Nat → Except String (List Conversation)
  | [], _ => Except.ok []
  | c :: cs, fresh => do
    let r ← parseConvJson now fresh c
    let rest ← parseConversationsGo now cs r.2
    Except.ok (r.1 :: rest)

/-- SyncService._parse_conversations: empty (falsy) input gives [], otherwise
each dict is parsed in order. -/
def parseConversations (conversationsData : List ConvJson) (now : PyDatetime) :
    Except String (List Conversation) :=
  if conversationsData.isEmpty then Except.ok []
  else parseConversationsGo now conversationsData 0

/-! ## SyncService._process_entry_change / _process_goal_change -/

/-- SyncService._process_entry_change.  The result carries the applied flag,
the database after the change, and (as instrumentation) the number of
compare_timestamps calls performed; Except.error models an exception
escaping to the caller.  nowDate models datetime.now().strftime("%Y-%m-%d")
and now models utc_now(). -/
def processEntryChange (now : PyDatetime) (nowDate userId : String)
    (changeType entityId : Option String) (data : ChangeData)
    (clientTimestamp : Option String) (baseVersions : List (String × Int))
    (db : Db) : Except String (Bool × Db × Nat) :=
  match entityId with
  | none => Except.ok (false, db, 0)
  | some eid =>
    match pyUUID eid with
    | none => Except.ok (false, db, 0)
    | some entryUuid =>
      let existing := get_entry_by_id db entryUuid userId
      if changeType = some "create" then
        match existing with
        | some ex => Except.ok (should_apply_update ex.updatedAt clientTimestamp, db, 1)
        | none => do
          let convs ← parseConversations (data.conversations.getD []) now
          let ec : EntryCreate :=
            { date := data.date.getD nowDate, conversations := convs,
              refinedOutput := data.refinedOutput.getD "" }
          Except.ok (true, create_entry db ec userId entryUuid now, 0)
      else if changeType = some "update" then
        match existing with
        | none => do
          let convs ← parseConversations (data.conversations.getD []) now
          let ec : EntryCreate :=
            { date := data.date.getD nowDate, conversations := convs,
              refinedOutput := data.refinedOutput.getD "" }
          Except.ok (true, create_entry db ec userId entryUuid now, 0)
        | some ex =>
          if !(should_apply_update ex.updatedAt clientTimestamp) then
            Except.ok (false, db, 1)
          else do
            let convs ← (match data.conversations with
              | some cj => do
                let cs ← parseConversations cj now
                Except.ok (some cs)
              | none => Except.ok none)
            if data.status = none ∨ data.status = some "active" ∨ data.status = some "archived" then
              let u : EntryUpdate :=
                { conversations := convs, refinedOutput := data.refinedOutput,
                  relevanceScore := data.relevanceScore, status := data.status }
              Except.ok (true, (update_entry db entryUuid userId u now).2, 1)
            else Except.error "validation error: EntryUpdate.status"
      else if changeType = some "delete" then
        match existing with
        | some _ =>
          Except.ok (true, (update_entry db entryUuid userId { status := some "archived" } now).2, 0)
        | none => Except.ok (true, db, 0)
      else Except.ok (false, db, 0)

/-- SyncService._process_goal_change, same result convention as
processEntryChange. -/
def processGoalChange (now : PyDatetime) (userId : String)
    (changeType entityId : Option String) (data : ChangeData)
    (clientTimestamp : Option String) (db : Db) : Except String (Bool × Db × Nat) :=
  match entityId with
  | none => Except.ok (false, db, 0)
  | some gid =>
    match pyUUID gid with
    | none => Except.ok (false, db, 0)
    | some goalUuid =>
      let existing := get_goal_by_id db goalUuid userId
      if changeType = some "create" then
        match existing with
        | some ex => Except.ok (should_apply_update ex.updatedAt clientTimestamp, db, 1)
        | none =>
          let gc : GoalCreate :=
            { category := data.category.getD "general",
              description := data.description.getD "" }
          Except.ok (true, create_goal db gc userId goalUuid now, 0)
      else if changeType = some "update" then
        match existing with
        | none =>
          let gc : GoalCreate :=
            { category := data.category.getD "general",
              description := data.description.getD "" }
          Except.ok (true, create_goal db gc userId goalUuid now, 0)
        | some ex =>
          if !(should_apply_update ex.updatedAt clientTimestamp) then
            Except.ok (false, db, 1)
          else
            let u : GoalUpdate :=
              { category := data.category, description := data.description,
                active := data.active }
            Except.ok (true, (update_goal db goalUuid userId u now).2, 1)
      else if changeType = some "delete" then
        match existing with
        | some _ => Except.ok (true, (delete_goal db goalUuid userId true now).2, 0)
        | none => Except.ok (true, db, 0)
      else Except.ok (false, db, 0)

/-! ## SyncService.process_pending_changes -/

/-- The body of the process_pending_changes loop for one change, with the
two _process_*_change methods abstracted as the handler arguments pe and pg:
dispatch on entity, append the entity_id to applied or skipped according to
the handler verdict, and on an exception append
change.get("entity_id", "unknown") to skipped.  Returns (applied?, value
appended, database after the change). -/
def processOneChange
    (pe : Option String → Option String → ChangeData → Option String →
          List (String × Int) → Db → Except String (Bool × Db × Nat))
    (pg : Option String → Option String → ChangeData → Option String →
          Db → Except String (Bool × Db × Nat))
    (bv : List (String × Int)) (db : Db) (c : Change) :
    Bool × Option String × Db :=
  if c.entity = some "entry" then
    match pe c.type c.entityId c.data c.timestamp bv db with
    | Except.ok (true, db2, _) => (true, c.entityId, db2)
    | Except.ok (false, db2, _) => (false, c.entityId, db2)
    | Except.error _ => (false, some (c.entityId.getD "unknown"), db)
  else if c.entity = some "goal" then
    match pg c.type c.entityId c.data c.timestamp db with
    | Except.ok (true, db2, _) => (true, c.entityId, db2)
    | Except.ok (false, db2, _) => (false, c.entityId, db2)
    | Except.error _ => (false, some (c.entityId.getD "unknown"), db)
  else (false, c.entityId, db)

/-- SyncService.process_pending_changes with the two handler methods
abstracted: iterate the client list in order, building the applied and
skipped lists. -/
def processPendingChangesWith
    (pe : Option String → Option String → ChangeData → Option String →
          List (String × Int) → Db → Except String (Bool × Db × Nat))
    (pg : Option String → Option String → ChangeData → Option String →
          Db → Except String (Bool × Db × Nat))
    (pending : List Change) (bv : List (String × Int)) (db : Db) :
    List (Option String) × List (Option String) × Db :=
  match pending with
  | [] => ([], [], db)
  | c :: rest =>
    let step := processOneChange pe pg bv db c
    let r := processPendingChangesWith pe pg rest bv step.2.2
    if step.1 then (step.2.1 :: r.1, r.2.1, r.2.2)
    else (r.1, step.2.1 :: r.2.1, r.2.2)

/-- The per-change outcomes (verdict and appended value) of the loop, in
input order, with the database threaded exactly as the loop threads it. -/
def scanOutcomes
    (pe : Option String → Option String → ChangeData → Option String →
          List (String × Int) → Db → Except String (Bool × Db × Nat))
    (pg : Option String → Option String → ChangeData → Option String →
          Db → Except String (Bool × Db × Nat))
    (pending : List Change) (bv : List (String × Int)) (db : Db) :
    List (Bool × Option String) :=
  match pending with
  | [] => []
  | c :: rest =>
    let step := processOneChange pe pg bv db c
    (step.1, step.2.1) :: scanOutcomes pe pg rest bv step.2.2

/-- SyncService.process_pending_changes with the concrete entry and goal
handlers. -/
def process_pending_changes (now : PyDatetime) (nowDate userId : String)
    (pending : List Change) (baseVersions : List (String × Int)) (db : Db) :
    List (Option String) × List (Option String) × Db :=
  processPendingChangesWith
    (fun t e d ts bv dbx => processEntryChange now nowDate userId t e d ts bv dbx)
    (fun t e d ts dbx => processGoalChange now userId t e d ts dbx)
    pending baseVersions db

/-! ## ChatService._call_llm_with_retry (app/services/chat.py) -/

/-- Retry configuration constants from app/services/chat.py.  The Python
floats 1.0 and 2.0 are exact, so they are modelled in Rat. -/
def MAX_RETRIES : Nat := 3

/-- Initial backoff before the first retry, in seconds. -/
def INITIAL_BACKOFF_SECONDS : Rat := 1

/-- Multiplicative backoff factor. -/
def BACKOFF_MULTIPLIER : Rat := 2

/-- Outcome of one underlying llm_router.chat / llm_router.refine call:
a response, a raised httpx.HTTPStatusError with a status code, or any other
raised exception. -/
inductive LLMOutcome where
  | ok (response : String)
  | httpStatusError (status : Nat)
  | otherError (msg : String)
deriving DecidableEq, Repr

/-- Observable events of the retry wrapper: an underlying LLM invocation, or
an asyncio.sleep of the given number of seconds. -/
inductive RetryEvent where
  | llmCall (attempt : Nat)
  | sleep (seconds : Rat)
deriving DecidableEq, Repr

/-- The `for attempt in range(MAX_RETRIES)` loop of _call_llm_with_retry,
recursing over the remaining attempt indices, over an oracle giving the
outcome of the underlying call at each attempt.  Except.error models a
raised LLMError (every exception the wrapper raises is an LLMError); the
event list records calls and sleeps in order.  Exhausting the list models
falling out of the loop into the final raise. -/
def callLLMLoop (method : String) (outcomes : Nat → LLMOutcome) :
    List Nat → Rat → Except String String × List RetryEvent
  | [], _ => (Except.error "Max retries exceeded", [])
  | attempt :: restAttempts, backoff =>
    if method = "chat" ∨ method = "refine" then
      match outcomes attempt with
      | LLMOutcome.ok r => (Except.ok r, [RetryEvent.llmCall attempt])
      | LLMOutcome.httpStatusError s =>
        if s = 429 then
          if attempt < MAX_RETRIES - 1 then
            let rest := callLLMLoop method outcomes restAttempts (backoff * BACKOFF_MULTIPLIER)
            (rest.1, RetryEvent.llmCall attempt :: RetryEvent.sleep backoff :: rest.2)
          else (Except.error "LLM HTTP error: 429", [RetryEvent.llmCall attempt])
        else (Except.error ("LLM HTTP error: " ++ toString s), [RetryEvent.llmCall attempt])
      | LLMOutcome.otherError m =>
        (Except.error ("LLM error: " ++ m), [RetryEvent.llmCall attempt])
    else (Except.error "LLM error: Unknown LLM method", [])

/-- ChatService._call_llm_with_retry: run the loop over
range(MAX_RETRIES) with the initial backoff. -/
def call_llm_with_retry (method : String) (outcomes : Nat → LLMOutcome) :
    Except String String × List RetryEvent :=
  callLLMLoop method outcomes (List.range MAX_RETRIES) INITIAL_BACKOFF_SECONDS

/-- Number of underlying LLM invocations in an event trace. -/
def countCalls (evs : List RetryEvent) : Nat :=
  (evs.filter (fun e => match e with
    | RetryEvent.llmCall _ => true
    | _ => false)).length

/-- The sleep durations of an event trace, in order. -/
def sleepsOf (evs : List RetryEvent) : List Rat :=
  evs.filterMap (fun e => match e with
    | RetryEvent.sleep q => some q
    | _ => none)

/-! ## LLMRouter (app/services/llm.py) -/

/-- CHAT_SYSTEM_PROMPT from app/services/llm.py (prose abridged to its first
line; the text is immaterial to the routing claims, which only distinguish
the two prompt constants). -/
def CHAT_SYSTEM_PROMPT : String :=
  "You are a thoughtful and empathetic journaling companion."

/-- REFINE_SYSTEM_PROMPT from app/services/llm.py (prose abridged to its
first line). -/
def REFINE_SYSTEM_PROMPT : String :=
  "You are a journal entry synthesizer."

/-- LLMRouter.generate with the two lazily constructed clients abstracted as
functions from (messages, system prompt) to the generated text: Ollama when
use_local_model is True, Gemini otherwise. -/
def LLMRouter.generate
    (gemini ollama : List (String × String) → String → String)
    (messages : List (String × String)) (systemPrompt : String)
    (useLocalModel : Bool) : String :=
  if useLocalModel then ollama messages systemPrompt
  else gemini messages systemPrompt

/-- LLMRouter.chat: generate with the chat system prompt. -/
def LLMRouter.chat
    (gemini ollama : List (String × String) → String → String)
    (messages : List (String × String)) (useLocalModel : Bool) : String :=
  LLMRouter.generate gemini ollama messages CHAT_SYSTEM_PROMPT useLocalModel

/-- LLMRouter.refine: generate on a single user message with the refine
system prompt. -/
def LLMRouter.refine
    (gemini ollama : List (String × String) → String → String)
    (conversationsText : String) (useLocalModel : Bool) : String :=
  LLMRouter.generate gemini ollama [("user", conversationsText)]
    REFINE_SYSTEM_PROMPT useLocalModel

/-! ## Spec-side definitions

These two definitions are written from the words of the spec claims (not
from the source), to be compared with the embedded code. -/

/-- Spec-side, for claim C4: strict lexicographic (code point) order on
character lists, shorter prefix first — the order Python string comparison
uses. -/
def lexLt : List Char → List Char → Bool
  | [], [] => false
  | [], _ :: _ => true
  | _ :: _, [] => false
  | a :: as, b :: bs => if a < b then true else if b < a then false else lexLt as bs

/-- Spec-side, for claim C4: Python `x >= y` on strings. -/
def pyStrGe (x y : String) : Bool := !(lexLt x.data y.data)

/-- Spec-side, for claim C3: the number of fields present in an update
payload — the number of independent per-field timestamp comparisons a
field-level LWW scheme would perform for the change. -/
def presentUpdateFieldCount (d : ChangeData) : Nat :=
  (if d.conversations.isSome then 1 else 0)
    + (if d.refinedOutput.isSome then 1 else 0)
    + (if d.relevanceScore.isSome then 1 else 0)
    + (if d.status.isSome then 1 else 0)

/-! ## Statement helpers -/

/-- Relates the conversations key of an update payload to its parse result:
absent stays absent, present must parse. -/
def convParseRel (now : PyDatetime) :
    Option (List ConvJson) → Option (List Conversation) → Prop
  | none, none => True
  | some l, some r => parseConversations l now = Except.ok r
  | _, _ => False

/-- Payload statuses the pydantic EntryUpdate Literal accepts (or absent). -/
def validUpdateStatus (d : ChangeData) : Prop :=
  d.status = none ∨ d.status = some "active" ∨ d.status = some "archived"

/-- The EntryUpdate an entry update change constructs from its payload, given
the parsed conversations. -/
def entryUpdateOf (data : ChangeData) (convs : Option (List Conversation)) : EntryUpdate :=
  { conversations := convs, refinedOutput := data.refinedOutput,
    relevanceScore := data.relevanceScore, status := data.status }

/-- A client timestamp that compare_timestamps treats leniently: absent,
empty, or unparseable. -/
def clientTsLenient (cts : Option String) : Prop :=
  cts = none ∨ cts = some ""
    ∨ ∃ s msg, cts = some s ∧ parse_iso_timestamp s = Except.error msg

/-- Field bounds under which the fixed-width isoformat rendering is
faithful (every real datetime satisfies them). -/
def isoFieldsBounded (dt : PyDatetime) : Prop :=
  dt.year < 10000 ∧ dt.month < 100 ∧ dt.day < 100
    ∧ dt.hour < 100 ∧ dt.minute < 100 ∧ dt.second < 100

/-- An underlying-call outcome that is a failure other than HTTP 429. -/
def isNon429Failure (o : LLMOutcome) : Prop :=
  (∃ s, o = LLMOutcome.httpStatusError s ∧ s ≠ 429)
    ∨ ∃ m, o = LLMOutcome.otherError m

/-! ## Concrete fixtures used by counterexamples and witnesses -/

/-- A fixed wall-clock instant for deterministic runs. -/
def fixtureNow : PyDatetime := { year := 2024, month := 12, day := 31, hour := 9 }

/-- The server entity's stored updated_at (naive UTC, as DuckDB stores). -/
def fixtureT0 : PyDatetime := { year := 2024, month := 12, day := 30, hour := 8 }

/-- A canonical entry id. -/
def fixtureEntryId : String := "11111111-2222-3333-4444-555555555555"

/-- A canonical goal id. -/
def fixtureGoalId : String := "aaaaaaaa-bbbb-cccc-dddd-eeeeeeeeeeee"

/-- A server entry row last updated at fixtureT0. -/
def fixtureEntryRow : EntryRow :=
  { id := fixtureEntryId, userId := "user-1", date := "2024-12-30",
    conversations := [], refinedOutput := "Server content", relevanceScore := 1,
    lastInteractedAt := none, interactionCount := 0, status := "active",
    pendingRefine := false, refineStatus := "idle", refineError := none,
    version := 1, createdAt := fixtureT0, updatedAt := fixtureT0 }

/-- A server goal row last updated at fixtureT0. -/
def fixtureGoalRow : GoalRow :=
  { id := fixtureGoalId, userId := "user-1", category := "health",
    description := "run", active := true, createdAt := fixtureT0,
    updatedAt := fixtureT0 }

/-- A database with one entry and one goal. -/
def fixtureDb : Db :=
  { entries := [fixtureEntryRow], entryVersions := [], goals := [fixtureGoalRow],
    nextVersionRowId := 0 }

/-- A payload carrying one field. -/
def fixtureData : ChangeData := { refinedOutput := some "Client content" }

/-- A payload with all four update fields present. -/
def fixtureData4 : ChangeData :=
  { conversations := some [], refinedOutput := some "Client content",
    relevanceScore := some 2, status := some "active" }

/-- The database after one delete change on fixtureDb's entry. -/
def fixtureDeleteOnce : Db :=
  match processEntryChange fixtureNow "2024-12-31" "user-1" (some "delete")
      (some fixtureEntryId) {} none [] fixtureDb with
  | Except.ok x => x.2.1
  | Except.error _ => fixtureDb

/-- The database after a second identical delete change. -/
def fixtureDeleteTwice : Db :=
  match processEntryChange fixtureNow "2024-12-31" "user-1" (some "delete")
      (some fixtureEntryId) {} none [] fixtureDeleteOnce with
  | Except.ok x => x.2.1
  | Except.error _ => fixtureDb

/-- The concrete entry handler over the fixture clock and user. -/
def fixturePe (t e : Option String) (d : ChangeData) (ts : Option String)
    (bv : List (String × Int)) (dbx : Db) : Except String (Bool × Db × Nat) :=
  processEntryChange fixtureNow "2024-12-31" "user-1" t e d ts bv dbx

/-- The concrete goal handler over the fixture clock and user. -/
def fixturePg (t e : Option String) (d : ChangeData) (ts : Option String)
    (dbx : Db) : Except String (Bool × Db × Nat) :=
  processGoalChange fixtureNow "user-1" t e d ts dbx

/-- A change with an unknown entity kind. -/
def fixtureChangeUnknown : Change :=
  { entity := some "widget", entityId := some "id-1", type := some "update" }

/-- An applicable entry update change. -/
def fixtureChangeOk : Change :=
  { entity := some "entry", entityId := some fixtureEntryId,
    type := some "update", timestamp := some "2024-12-30T12:00:00Z",
    data := fixtureData }

/-- An entry update change whose payload raises while parsing (unparseable
conversation started_at). -/
def fixtureChangeBad : Change :=
  { entity := some "entry", entityId := some fixtureEntryId,
    type := some "update", timestamp := some "2024-12-30T12:00:00Z",
    data := { conversations := some [{ startedAt := some "garbage" }] } }

/-- The pending list for the partition witness. -/
def fixturePending : List Change :=
  [fixtureChangeUnknown, fixtureChangeOk, fixtureChangeBad]

/-- The claim C4 client timestamp: five hours east of UTC. -/
def fixtureOffsetTs : String := "2024-12-30T12:00:00+05:00"

/-- The database after a delete change on fixtureDb's goal. -/
def fixtureGoalDel : Db :=
  match processGoalChange fixtureNow "user-1" (some "delete") (some fixtureGoalId)
      {} none fixtureDb with
  | Except.ok x => x.2.1
  | Except.error _ => fixtureDb

/-! # Theorems -/

/-! ## Retry wrapper lemmas -/

lemma countCalls_le_length (m : String) (o : Nat → LLMOutcome) :
    ∀ (atts : List Nat) (b : Rat), countCalls (callLLMLoop m o atts b).2 ≤ atts.length := by
  intro atts
  induction atts with
  | nil => intro b; simp [callLLMLoop, countCalls]
  | cons a rest ih =>
    intro b
    by_cases hm : m = "chat" ∨ m = "refine"
    · rcases ho : o a with r | s | msg
      · simp [callLLMLoop, hm, ho, countCalls]
      · by_cases h429 : s = 429
        · subst h429
          by_cases hlast : a < MAX_RETRIES - 1
          · have hrec := ih (b * BACKOFF_MULTIPLIER)
            simp only [callLLMLoop, hm, ho, hlast, if_true, if_pos, List.length_cons]
            simp only [countCalls, List.filter, List.length_cons] at hrec ⊢
            omega
          · simp [callLLMLoop, hm, ho, hlast, countCalls]
        · simp [callLLMLoop, hm, ho, h429, countCalls]
      · simp [callLLMLoop, hm, ho, countCalls]
    · simp [callLLMLoop, hm, countCalls]

/-- C2: the chat-service retry wrapper makes at most MAX_RETRIES = 3
underlying LLM calls for every outcome sequence; and when every attempt
fails with HTTP 429 it sleeps 1.0 seconds before the second attempt and
2.0 seconds before the third (backoff multiplied by 2.0 each retry) and
raises LLMError. -/
theorem retry_three_attempts_backoff (method : String) (outcomes : Nat → LLMOutcome) :
    countCalls (call_llm_with_retry method outcomes).2 ≤ MAX_RETRIES
    ∧ ((method = "chat" ∨ method = "refine") →
        (∀ i, i < MAX_RETRIES → outcomes i = LLMOutcome.httpStatusError 429) →
        call_llm_with_retry method outcomes =
          (Except.error "LLM HTTP error: 429",
           [RetryEvent.llmCall 0, RetryEvent.sleep 1, RetryEvent.llmCall 1,
            RetryEvent.sleep 2, RetryEvent.llmCall 2])) := by
  constructor
  · have h := countCalls_le_length method outcomes (List.range MAX_RETRIES) INITIAL_BACKOFF_SECONDS
    simpa [call_llm_with_retry] using h
  · intro hm h429
    have h0 := h429 0 (by norm_num [MAX_RETRIES])
    have h1 := h429 1 (by norm_num [MAX_RETRIES])
    have h2 := h429 2 (by norm_num [MAX_RETRIES])
    rcases hm with hm | hm <;> subst hm <;>
      simp [call_llm_with_retry, callLLMLoop, MAX_RETRIES, List.range, List.range.loop,
            h0, h1, h2, INITIAL_BACKOFF_SECONDS, BACKOFF_MULTIPLIER]

/-- Witness for C2 at the all-429 oracle. -/
theorem retry_three_attempts_backoff_witness :
    countCalls (call_llm_with_retry "chat" (fun _ => LLMOutcome.httpStatusError 429)).2 ≤ MAX_RETRIES
    ∧ call_llm_with_retry "chat" (fun _ => LLMOutcome.httpStatusError 429) =
      (Except.error "LLM HTTP error: 429",
       [RetryEvent.llmCall 0, RetryEvent.sleep 1, RetryEvent.llmCall 1,
        RetryEvent.sleep 2, RetryEvent.llmCall 2]) := by
  have h := retry_three_attempts_backoff "chat" (fun _ => LLMOutcome.httpStatusError 429)
  exact ⟨h.1, h.2 (Or.inl rfl) (fun i _ => rfl)⟩

/-- C5: a failing attempt that is not an HTTP 429 raises LLMError at once:
if the first i attempts fail with 429 and attempt i fails with a non-429
error, the wrapper ends in LLMError after exactly i+1 calls and i sleeps
(none after the failing attempt). -/
theorem retry_non429_raises_immediately (method : String) (outcomes : Nat → LLMOutcome)
    (hm : method = "chat" ∨ method = "refine") (i : Nat) (hi : i < MAX_RETRIES)
    (hprev : ∀ j, j < i → outcomes j = LLMOutcome.httpStatusError 429)
    (hfail : isNon429Failure (outcomes i)) :
    (∃ msg, (call_llm_with_retry method outcomes).1 = Except.error msg)
    ∧ countCalls (call_llm_with_retry method outcomes).2 = i + 1
    ∧ (sleepsOf (call_llm_with_retry method outcomes).2).length = i := by
  have hM : MAX_RETRIES = 3 := rfl
  rw [hM] at hi
  interval_cases i
  · rcases hfail with ⟨s, hs, hs429⟩ | ⟨msg, hmsg⟩
    · rcases hm with hm | hm <;> subst hm <;>
        simp [call_llm_with_retry, callLLMLoop, MAX_RETRIES, List.range, List.range.loop,
              hs, hs429, countCalls, sleepsOf]
    · rcases hm with hm | hm <;> subst hm <;>
        simp [call_llm_with_retry, callLLMLoop, MAX_RETRIES, List.range, List.range.loop,
              hmsg, countCalls, sleepsOf]
  · have hp0 := hprev 0 (by norm_num)
    rcases hfail with ⟨s, hs, hs429⟩ | ⟨msg, hmsg⟩
    · rcases hm with hm | hm <;> subst hm <;>
        simp [call_llm_with_retry, callLLMLoop, MAX_RETRIES, List.range, List.range.loop,
              hp0, hs, hs429, countCalls, sleepsOf]
    · rcases hm with hm | hm <;> subst hm <;>
        simp [call_llm_with_retry, callLLMLoop, MAX_RETRIES, List.range, List.range.loop,
              hp0, hmsg, countCalls, sleepsOf]
  · have hp0 := hprev 0 (by norm_num)
    have hp1 := hprev 1 (by norm_num)
    rcases hfail with ⟨s, hs, hs429⟩ | ⟨msg, hmsg⟩
    · rcases hm with hm | hm <;> subst hm <;>
        simp [call_llm_with_retry, callLLMLoop, MAX_RETRIES, List.range, List.range.loop,
              hp0, hp1, hs, hs429, countCalls, sleepsOf]
    · rcases hm with hm | hm <;> subst hm <;>
        simp [call_llm_with_retry, callLLMLoop, MAX_RETRIES, List.range, List.range.loop,
              hp0, hp1, hmsg, countCalls, sleepsOf]

/-- Witness for C5: first attempt 429, second attempt a 500. -/
theorem retry_non429_raises_immediately_witness :
    (∃ msg, (call_llm_with_retry "chat"
        (fun i => if i = 0 then LLMOutcome.httpStatusError 429
                  else LLMOutcome.httpStatusError 500)).1 = Except.error msg)
    ∧ countCalls (call_llm_with_retry "chat"
        (fun i => if i = 0 then LLMOutcome.httpStatusError 429
                  else LLMOutcome.httpStatusError 500)).2 = 2
    ∧ (sleepsOf (call_llm_with_retry "chat"
        (fun i => if i = 0 then LLMOutcome.httpStatusError 429
                  else LLMOutcome.httpStatusError 500)).2).length = 1 :=
  retry_non429_raises_immediately "chat" _ (Or.inl rfl) 1 (by norm_num [MAX_RETRIES])
    (fun j hj => by interval_cases j; rfl)
    (Or.inl ⟨500, rfl, by norm_num⟩)

/-! ## LLM router dispatch -/

/-- C7: LLMRouter.generate dispatches to the Ollama client exactly when
use_local_model is true and to the Gemini client exactly when it is false;
chat and refine delegate to generate with their system prompts. -/
theorem llm_router_flag_dispatch
    (gemini ollama : List (String × String) → String → String)
    (messages : List (String × String)) (systemPrompt conversationsText : String) :
    LLMRouter.generate gemini ollama messages systemPrompt true = ollama messages systemPrompt
    ∧ LLMRouter.generate gemini ollama messages systemPrompt false = gemini messages systemPrompt
    ∧ (∀ u, LLMRouter.chat gemini ollama messages u =
        LLMRouter.generate gemini ollama messages CHAT_SYSTEM_PROMPT u)
    ∧ (∀ u, LLMRouter.refine gemini ollama conversationsText u =
        LLMRouter.generate gemini ollama [("user", conversationsText)] REFINE_SYSTEM_PROMPT u) :=
  ⟨rfl, rfl, fun _ => rfl, fun _ => rfl⟩

/-! ## base_versions is never read -/

lemma processOneChange_bv_irrelevant
    (pe : Option String → Option String → ChangeData → Option String →
          List (String × Int) → Db → Except String (Bool × Db × Nat))
    (pg : Option String → Option String → ChangeData → Option String →
          Db → Except String (Bool × Db × Nat))
    (bv1 bv2 : List (String × Int)) (db : Db) (c : Change)
    (h : ∀ t e d ts dbx, pe t e d ts bv1 dbx = pe t e d ts bv2 dbx) :
    processOneChange pe pg bv1 db c = processOneChange pe pg bv2 db c := by
  simp only [processOneChange, h]

lemma processPendingChangesWith_bv_irrelevant
    (pe : Option String → Option String → ChangeData → Option String →
          List (String × Int) → Db → Except String (Bool × Db × Nat))
    (pg : Option String → Option String → ChangeData → Option String →
          Db → Except String (Bool × Db × Nat))
    (bv1 bv2 : List (String × Int))
    (h : ∀ t e d ts dbx, pe t e d ts bv1 dbx = pe t e d ts bv2 dbx) :
    ∀ (pending : List Change) (db : Db),
      processPendingChangesWith pe pg pending bv1 db =
        processPendingChangesWith pe pg pending bv2 db := by
  intro pending
  induction pending with
  | nil => intro db; rfl
  | cons c rest ih =>
    intro db
    simp only [processPendingChangesWith,
      processOneChange_bv_irrelevant pe pg bv1 bv2 db c h, ih]

/-- C8: base_versions has no effect: two runs of process_pending_changes
differing only in base_versions produce identical applied and skipped lists
and identical database state, because the argument is accepted but never
read. -/
theorem base_versions_no_effect (now : PyDatetime) (nowDate userId : String)
    (pending : List Change) (bv1 bv2 : List (String × Int)) (db : Db) :
    process_pending_changes now nowDate userId pending bv1 db =
      process_pending_changes now nowDate userId pending bv2 db := by
  unfold process_pending_changes
  refine processPendingChangesWith_bv_irrelevant _ _ bv1 bv2
    (fun t e d ts dbx => ?_) pending db
  rfl

/-! ## Partition of pending changes (C6) -/

lemma processPendingChangesWith_eq_scan
    (pe : Option String → Option String → ChangeData → Option String →
          List (String × Int) → Db → Except String (Bool × Db × Nat))
    (pg : Option String → Option String → ChangeData → Option String →
          Db → Except String (Bool × Db × Nat))
    (bv : List (String × Int)) :
    ∀ (pending : List Change) (db : Db),
      (processPendingChangesWith pe pg pending bv db).1 =
        ((scanOutcomes pe pg pending bv db).filter (fun o => o.1)).map (fun o => o.2)
      ∧ (processPendingChangesWith pe pg pending bv db).2.1 =
        ((scanOutcomes pe pg pending bv db).filter (fun o => !o.1)).map (fun o => o.2)
      ∧ (scanOutcomes pe pg pending bv db).length = pending.length := by
  intro pending
  induction pending with
  | nil => intro db; exact ⟨rfl, rfl, rfl⟩
  | cons c rest ih =>
    intro db
    obtain ⟨ih1, ih2, ih3⟩ := ih (processOneChange pe pg bv db c).2.2
    by_cases hflag : (processOneChange pe pg bv db c).1 = true
    · constructor
      · simp [processPendingChangesWith, scanOutcomes, hflag, ih1]
      · constructor
        · simp [processPendingChangesWith, scanOutcomes, hflag, ih2]
        · simp [scanOutcomes, ih3]
    · rw [Bool.not_eq_true] at hflag
      constructor
      · simp [processPendingChangesWith, scanOutcomes, hflag, ih1]
      · constructor
        · simp [processPendingChangesWith, scanOutcomes, hflag, ih2]
        · simp [scanOutcomes, ih3]

/-- C6: process_pending_changes partitions its input: the applied and
skipped lists are exactly the true- and false-flagged per-change outcomes in
input order (so their lengths sum to the input length); a change whose
entity is neither entry nor goal is skipped, and a change whose handler
raises is skipped with change.get("entity_id", "unknown"). -/
theorem process_pending_changes_partition
    (pe : Option String → Option String → ChangeData → Option String →
          List (String × Int) → Db → Except String (Bool × Db × Nat))
    (pg : Option String → Option String → ChangeData → Option String →
          Db → Except String (Bool × Db × Nat))
    (pending : List Change) (bv : List (String × Int)) (db : Db) :
    (processPendingChangesWith pe pg pending bv db).1.length
        + (processPendingChangesWith pe pg pending bv db).2.1.length = pending.length
    ∧ (processPendingChangesWith pe pg pending bv db).1 =
        ((scanOutcomes pe pg pending bv db).filter (fun o => o.1)).map (fun o => o.2)
    ∧ (processPendingChangesWith pe pg pending bv db).2.1 =
        ((scanOutcomes pe pg pending bv db).filter (fun o => !o.1)).map (fun o => o.2)
    ∧ (scanOutcomes pe pg pending bv db).length = pending.length
    ∧ (∀ (c : Change) (dbx : Db), c.entity ≠ some "entry" → c.entity ≠ some "goal" →
        processOneChange pe pg bv dbx c = (false, c.entityId, dbx))
    ∧ (∀ (c : Change) (dbx : Db) (msg : String), c.entity = some "entry" →
        pe c.type c.entityId c.data c.timestamp bv dbx = Except.error msg →
        processOneChange pe pg bv dbx c = (false, some (c.entityId.getD "unknown"), dbx))
    ∧ (∀ (c : Change) (dbx : Db) (msg : String), c.entity = some "goal" →
        pg c.type c.entityId c.data c.timestamp dbx = Except.error msg →
        processOneChange pe pg bv dbx c = (false, some (c.entityId.getD "unknown"), dbx)) := by
  obtain ⟨h1, h2, h3⟩ := processPendingChangesWith_eq_scan pe pg bv pending db
  refine ⟨?_, h1, h2, h3, ?_, ?_, ?_⟩
  · rw [h1, h2, List.length_map, List.length_map, ← h3]
    exact Eq.symm (List.length_eq_length_filter_add (fun o => o.1))
  · intro c dbx hc1 hc2
    simp [processOneChange, hc1, hc2]
  · intro c dbx msg hc herr
    simp [processOneChange, hc, herr]
  · intro c dbx msg hc herr
    simp [processOneChange, hc, herr]

/-- Witness for C6 on a three-change list: one unknown entity, one applied
entry update, one whose payload raises. -/
theorem process_pending_changes_partition_witness :
    (processPendingChangesWith fixturePe fixturePg fixturePending [] fixtureDb).1.length
        + (processPendingChangesWith fixturePe fixturePg fixturePending [] fixtureDb).2.1.length = 3
    ∧ processOneChange fixturePe fixturePg [] fixtureDb fixtureChangeUnknown =
        (false, some "id-1", fixtureDb)
    ∧ processOneChange fixturePe fixturePg [] fixtureDb fixtureChangeBad =
        (false, some fixtureEntryId, fixtureDb) := by
  have h := process_pending_changes_partition fixturePe fixturePg fixturePending [] fixtureDb
  refine ⟨by simpa using h.1, ?_, ?_⟩
  · exact h.2.2.2.2.1 fixtureChangeUnknown fixtureDb (by decide) (by decide)
  · have := h.2.2.2.2.2.1 fixtureChangeBad fixtureDb
      "Cannot parse timestamp: garbage" (by decide) (by decide)
    simpa using this

/-! ## Last-write-wins characterization (C1, C3, C9) -/

lemma compare_timestamps_parsed (s : String) (cdt sdt : PyDatetime)
    (hparse : parse_iso_timestamp s = Except.ok cdt) :
    compare_timestamps (some s) sdt = cdt.pyGe (serverUtcOf sdt) := by
  by_cases h0 : s = ""
  · subst h0
    have hempty : (parse_iso_timestamp "").isOk = false := rfl
    rw [hparse] at hempty
    simp [Except.isOk, Except.toBool] at hempty
  · simp [compare_timestamps, h0, hparse]

lemma compare_timestamps_lenient_true (cts : Option String) (h : clientTsLenient cts)
    (sdt : PyDatetime) : compare_timestamps cts sdt = true := by
  rcases h with h | h | ⟨s, msg, hs, herr⟩
  · subst h; rfl
  · subst h; rfl
  · subst hs
    by_cases h0 : s = ""
    · simp [compare_timestamps, h0]
    · simp [compare_timestamps, h0, herr]

lemma processEntryChange_update_existing
    (now : PyDatetime) (nowDate userId eid canon : String)
    (data : ChangeData) (cts : Option String)
    (bv : List (String × Int)) (db : Db) (ex : EntryRow)
    (convs : Option (List Conversation))
    (huuid : pyUUID eid = some canon)
    (hex : get_entry_by_id db canon userId = some ex)
    (hconv : convParseRel now data.conversations convs)
    (hstatus : validUpdateStatus data) :
    processEntryChange now nowDate userId (some "update") (some eid) data cts bv db =
      (if should_apply_update ex.updatedAt cts then
        Except.ok (true, (update_entry db canon userId (entryUpdateOf data convs) now).2, 1)
      else Except.ok (false, db, 1)) := by
  rw [validUpdateStatus] at hstatus
  simp only [processEntryChange, huuid, hex]
  by_cases happ : should_apply_update ex.updatedAt cts
  · simp only [happ, Bool.not_true, if_true, if_false, Bool.false_eq_true, reduceIte]
    rcases hc : data.conversations with _ | cj <;> rcases hc2 : convs with _ | cs <;>
      rw [hc, hc2] at hconv
    · simp [hc, hstatus, entryUpdateOf, hc2, bind, Except.bind]
    · exact absurd hconv (by simp [convParseRel])
    · exact absurd hconv (by simp [convParseRel])
    · simp only [convParseRel] at hconv
      simp [hc, hconv, hstatus, entryUpdateOf, hc2, bind, Except.bind]
  · simp [happ]

lemma processEntryChange_create_existing
    (now : PyDatetime) (nowDate userId eid canon : String)
    (data : ChangeData) (cts : Option String)
    (bv : List (String × Int)) (db : Db) (ex : EntryRow)
    (huuid : pyUUID eid = some canon)
    (hex : get_entry_by_id db canon userId = some ex) :
    processEntryChange now nowDate userId (some "create") (some eid) data cts bv db =
      Except.ok (should_apply_update ex.updatedAt cts, db, 1) := by
  simp [processEntryChange, huuid, hex]

/-- C1 (amended): for an update change with a parseable client timestamp on
an existing entry, _should_apply_update is exactly client >= server after
UTC normalization; the update is applied precisely when that holds and the
database is left unchanged when the server is strictly newer; for a create
change on an existing entry the same verdict is reported, but the entity is
never written either way. -/
theorem sync_lww_update_and_create
    (now : PyDatetime) (nowDate userId eid canon : String)
    (data : ChangeData) (cts : String) (cdt : PyDatetime)
    (bv : List (String × Int)) (db : Db) (ex : EntryRow)
    (convs : Option (List Conversation))
    (huuid : pyUUID eid = some canon)
    (hex : get_entry_by_id db canon userId = some ex)
    (hconv : convParseRel now data.conversations convs)
    (hstatus : validUpdateStatus data)
    (hparse : parse_iso_timestamp cts = Except.ok cdt) :
    should_apply_update ex.updatedAt (some cts) = cdt.pyGe (serverUtcOf ex.updatedAt)
    ∧ processEntryChange now nowDate userId (some "update") (some eid) data (some cts) bv db =
        Except.ok (cdt.pyGe (serverUtcOf ex.updatedAt),
          if cdt.pyGe (serverUtcOf ex.updatedAt) then
            (update_entry db canon userId (entryUpdateOf data convs) now).2
          else db,
          1)
    ∧ processEntryChange now nowDate userId (some "create") (some eid) data (some cts) bv db =
        Except.ok (cdt.pyGe (serverUtcOf ex.updatedAt), db, 1) := by
  have hcmp : should_apply_update ex.updatedAt (some cts) = cdt.pyGe (serverUtcOf ex.updatedAt) := by
    unfold should_apply_update
    exact compare_timestamps_parsed cts cdt ex.updatedAt hparse
  have hupd := processEntryChange_update_existing now nowDate userId eid canon data (some cts)
    bv db ex convs huuid hex hconv hstatus
  have hcre := processEntryChange_create_existing now nowDate userId eid canon data (some cts)
    bv db ex huuid hex
  rw [hcmp] at hupd hcre
  refine ⟨hcmp, ?_, hcre⟩
  cases hb : cdt.pyGe (serverUtcOf ex.updatedAt) <;> rw [hb] at hupd <;> simpa using hupd

/-- Witness for C1: an update with an older client timestamp is skipped and
the database is unchanged. -/
theorem sync_lww_update_and_create_witness :
    processEntryChange fixtureNow "2024-12-31" "user-1" (some "update")
        (some fixtureEntryId) fixtureData (some "2024-12-30T06:00:00Z") [] fixtureDb =
      Except.ok (false, fixtureDb, 1) := by
  have h := sync_lww_update_and_create fixtureNow "2024-12-31" "user-1"
    fixtureEntryId fixtureEntryId fixtureData "2024-12-30T06:00:00Z"
    { year := 2024, month := 12, day := 30, hour := 6, utcoffset := some 0 }
    [] fixtureDb fixtureEntryRow none (by decide) (by decide) trivial (Or.inl rfl) (by decide)
  have hb : ({ year := 2024, month := 12, day := 30, hour := 6, utcoffset := some 0 } :
      PyDatetime).pyGe (serverUtcOf fixtureEntryRow.updatedAt) = false := by decide
  have h2 := h.2.1
  rw [hb] at h2
  simpa using h2

/-- Counterexample for C1 as stated: a create change on an existing entry
with a strictly newer client timestamp is reported applied, yet the server
entity (and the whole database) is left unchanged. -/
theorem sync_create_existing_never_writes :
    compare_timestamps (some "2024-12-30T12:00:00Z") fixtureEntryRow.updatedAt = true
    ∧ processEntryChange fixtureNow "2024-12-31" "user-1" (some "create")
        (some fixtureEntryId) fixtureData (some "2024-12-30T12:00:00Z") [] fixtureDb =
      Except.ok (true, fixtureDb, 1)
    ∧ (get_entry_by_id fixtureDb fixtureEntryId "user-1").map EntryRow.refinedOutput =
        some "Server content"
    ∧ fixtureData.refinedOutput = some "Client content" :=
  ⟨by decide, by decide, by decide, rfl⟩

/-- C3 (amended): conflict resolution is entity level, not field level: an
update on an existing entry performs exactly one timestamp comparison (the
1 in the result), and that single verdict decides the whole change — all
present fields are written via one update_entry call, or none and the
database is unchanged. -/
theorem sync_entity_level_lww
    (now : PyDatetime) (nowDate userId eid canon : String)
    (data : ChangeData) (cts : Option String)
    (bv : List (String × Int)) (db : Db) (ex : EntryRow)
    (convs : Option (List Conversation))
    (huuid : pyUUID eid = some canon)
    (hex : get_entry_by_id db canon userId = some ex)
    (hconv : convParseRel now data.conversations convs)
    (hstatus : validUpdateStatus data) :
    processEntryChange now nowDate userId (some "update") (some eid) data cts bv db =
      Except.ok (should_apply_update ex.updatedAt cts,
        (if should_apply_update ex.updatedAt cts then
          (update_entry db canon userId (entryUpdateOf data convs) now).2
        else db),
        1) := by
  have h := processEntryChange_update_existing now nowDate userId eid canon data cts
    bv db ex convs huuid hex hconv hstatus
  cases hb : should_apply_update ex.updatedAt cts <;> rw [hb] at h <;> simpa using h

/-- Witness for C3: an applicable update with all four fields present is
applied atomically by the single comparison. -/
theorem sync_entity_level_lww_witness :
    processEntryChange fixtureNow "2024-12-31" "user-1" (some "update")
        (some fixtureEntryId) fixtureData4 (some "2024-12-30T12:00:00Z") [] fixtureDb =
      Except.ok (true,
        (update_entry fixtureDb fixtureEntryId "user-1"
          (entryUpdateOf fixtureData4 (some [])) fixtureNow).2, 1) := by
  have h := sync_entity_level_lww fixtureNow "2024-12-31" "user-1"
    fixtureEntryId fixtureEntryId fixtureData4 (some "2024-12-30T12:00:00Z")
    [] fixtureDb fixtureEntryRow (some []) (by decide) (by decide) rfl
    (Or.inr (Or.inl rfl))
  have hb : should_apply_update fixtureEntryRow.updatedAt (some "2024-12-30T12:00:00Z") = true := by
    decide
  rw [hb] at h
  simpa using h

/-- Counterexample for C3 as stated: an update carrying four present fields
triggers exactly one timestamp comparison, not one per field, and the single
entity-level verdict skips every field at once. -/
theorem sync_field_level_lww_refuted :
    presentUpdateFieldCount fixtureData4 = 4
    ∧ processEntryChange fixtureNow "2024-12-31" "user-1" (some "update")
        (some fixtureEntryId) fixtureData4 (some "2024-12-30T06:00:00Z") [] fixtureDb =
      Except.ok (false, fixtureDb, 1)
    ∧ (1 : Nat) ≠ presentUpdateFieldCount fixtureData4 := by
  refine ⟨rfl, by decide, by decide⟩

/-- C9: a missing, empty, or unparseable client timestamp always wins:
compare_timestamps and _should_apply_update return True, so an update on an
existing entity is applied (and a create on an existing entity is reported
applied) regardless of the server updated_at. -/
theorem lenient_timestamp_always_applies
    (cts : Option String) (hts : clientTsLenient cts) (sdt : PyDatetime)
    (now : PyDatetime) (nowDate userId eid canon : String) (data : ChangeData)
    (bv : List (String × Int)) (db : Db) (ex : EntryRow)
    (convs : Option (List Conversation))
    (huuid : pyUUID eid = some canon)
    (hex : get_entry_by_id db canon userId = some ex)
    (hconv : convParseRel now data.conversations convs)
    (hstatus : validUpdateStatus data) :
    compare_timestamps cts sdt = true
    ∧ should_apply_update sdt cts = true
    ∧ processEntryChange now nowDate userId (some "update") (some eid) data cts bv db =
        Except.ok (true, (update_entry db canon userId (entryUpdateOf data convs) now).2, 1)
    ∧ processEntryChange now nowDate userId (some "create") (some eid) data cts bv db =
        Except.ok (true, db, 1) := by
  have hall : ∀ d : PyDatetime, compare_timestamps cts d = true :=
    fun d => compare_timestamps_lenient_true cts hts d
  have happ : should_apply_update ex.updatedAt cts = true := hall ex.updatedAt
  have hupd := processEntryChange_update_existing now nowDate userId eid canon data cts
    bv db ex convs huuid hex hconv hstatus
  have hcre := processEntryChange_create_existing now nowDate userId eid canon data cts
    bv db ex huuid hex
  rw [happ] at hupd hcre
  exact ⟨hall sdt, hall sdt, by simpa using hupd, hcre⟩

/-- Witness for C9 at an unparseable concrete timestamp. -/
theorem lenient_timestamp_always_applies_witness :
    compare_timestamps (some "not-a-date") fixtureT0 = true
    ∧ processEntryChange fixtureNow "2024-12-31" "user-1" (some "update")
        (some fixtureEntryId) fixtureData (some "not-a-date") [] fixtureDb =
      Except.ok (true,
        (update_entry fixtureDb fixtureEntryId "user-1"
          (entryUpdateOf fixtureData none) fixtureNow).2, 1) := by
  have h := lenient_timestamp_always_applies (some "not-a-date")
    (Or.inr (Or.inr ⟨"not-a-date", "Cannot parse timestamp: not-a-date", rfl, by decide⟩))
    fixtureT0 fixtureNow "2024-12-31" "user-1" fixtureEntryId fixtureEntryId fixtureData
    [] fixtureDb fixtureEntryRow none (by decide) (by decide) trivial (Or.inl rfl)
  exact ⟨h.1, h.2.2.1⟩

/-! ## Delete semantics (C10) -/

lemma find?_map_if {α : Type} (p : α → Bool) (f : α → α)
    (hpf : ∀ x, p x = true → p (f x) = true) :
    ∀ (l : List α) (r : α), l.find? p = some r →
      (l.map (fun x => if p x then f x else x)).find? p = some (f r) := by
  intro l
  induction l with
  | nil => intro r h; simp at h
  | cons a t ih =>
    intro r h
    by_cases hpa : p a = true
    · rw [List.find?_cons_of_pos _ hpa] at h
      cases h
      simp only [List.map_cons, if_pos hpa]
      rw [List.find?_cons_of_pos _ (hpf a hpa)]
    · have hpa2 : ¬ p a = true := hpa
      rw [List.find?_cons_of_neg _ hpa2] at h
      simp only [List.map_cons, if_neg hpa2]
      rw [List.find?_cons_of_neg _ hpa2]
      exact ih r h

lemma map_if_idem {α : Type} (p : α → Bool) (f : α → α)
    (hpf : ∀ x, p x = true → p (f x) = true)
    (hff : ∀ x, p x = true → f (f x) = f x) (l : List α) :
    (l.map (fun x => if p x then f x else x)).map (fun x => if p x then f x else x) =
      l.map (fun x => if p x then f x else x) := by
  rw [List.map_map]
  apply List.map_congr_left
  intro x _
  by_cases hpx : p x = true
  · simp only [Function.comp, if_pos hpx, if_pos (hpf x hpx), hff x hpx]
  · simp only [Function.comp, if_neg hpx]

lemma delete_goal_soft_db (db : Db) (canon userId : String) (now : PyDatetime)
    (g : GoalRow) (hx : get_goal_by_id db canon userId = some g) :
    (delete_goal db canon userId true now).2 =
      { db with goals := db.goals.map (fun x =>
          if x.id == canon && x.userId == userId then
            { x with active := false, updatedAt := now }
          else x) } := by
  unfold delete_goal
  rw [hx]
  rfl

lemma get_goal_by_id_after_soft_delete (db : Db) (canon userId : String)
    (now : PyDatetime) (g : GoalRow) (hx : get_goal_by_id db canon userId = some g) :
    get_goal_by_id (delete_goal db canon userId true now).2 canon userId =
      some { g with active := false, updatedAt := now } := by
  rw [delete_goal_soft_db db canon userId now g hx]
  unfold get_goal_by_id at hx ⊢
  exact find?_map_if _ (fun x => { x with active := false, updatedAt := now })
    (fun x hxx => by simpa using hxx) db.goals g hx

lemma delete_goal_soft_idem (db : Db) (canon userId : String) (now : PyDatetime)
    (g : GoalRow) (hx : get_goal_by_id db canon userId = some g) :
    (delete_goal (delete_goal db canon userId true now).2 canon userId true now).2 =
      (delete_goal db canon userId true now).2 := by
  have hfind2 := get_goal_by_id_after_soft_delete db canon userId now g hx
  rw [delete_goal_soft_db _ canon userId now _ hfind2,
      delete_goal_soft_db db canon userId now g hx]
  have h := map_if_idem (fun x : GoalRow => x.id == canon && x.userId == userId)
    (fun x => { x with active := false, updatedAt := now })
    (fun x hxx => by simpa using hxx) (fun x _ => rfl) db.goals
  simp only []
  rw [h]

lemma get_entry_by_id_after_update
    (db : Db) (canon userId : String) (u : EntryUpdate) (now : PyDatetime)
    (ex : EntryRow) (hex : get_entry_by_id db canon userId = some ex) :
    get_entry_by_id (update_entry db canon userId u now).2 canon userId =
      some (applyEntryUpdate ex u now) := by
  unfold update_entry
  rw [hex]
  unfold get_entry_by_id at hex ⊢
  simp only [create_entry_version]
  exact find?_map_if _ (fun r => applyEntryUpdate r u now)
    (fun x hx => by simpa [applyEntryUpdate] using hx) db.entries ex hex

/-- C10 (amended): a 'delete' pending change with a well-formed id is always
reported applied, whether or not the target exists.  An entry is never
removed: its status is set to archived via update_entry, which also
increments version, refreshes updated_at and inserts a version snapshot (so
repeating the delete does not leave the state identical).  A goal is soft
deleted: the row is kept with active set to False, and repeating the goal
delete under the same clock leaves the state fixed. -/
theorem sync_delete_reported_applied_soft
    (now : PyDatetime) (nowDate userId eid canon : String)
    (data : ChangeData) (cts : Option String)
    (bv : List (String × Int)) (db : Db)
    (huuid : pyUUID eid = some canon) :
    (∃ db2, processEntryChange now nowDate userId (some "delete") (some eid) data cts bv db =
        Except.ok (true, db2, 0)
      ∧ db2.entries.length = db.entries.length
      ∧ (∀ ex, get_entry_by_id db canon userId = some ex →
          get_entry_by_id db2 canon userId =
            some (applyEntryUpdate ex { status := some "archived" } now)
          ∧ db2.entryVersions.length = db.entryVersions.length + 1)
      ∧ (get_entry_by_id db canon userId = none → db2 = db))
    ∧ (∃ db3, processGoalChange now userId (some "delete") (some eid) data cts db =
        Except.ok (true, db3, 0)
      ∧ db3.goals.length = db.goals.length
      ∧ (∀ g, get_goal_by_id db canon userId = some g →
          get_goal_by_id db3 canon userId = some { g with active := false, updatedAt := now })
      ∧ processGoalChange now userId (some "delete") (some eid) data cts db3 =
          Except.ok (true, db3, 0)) := by
  constructor
  · rcases hx : get_entry_by_id db canon userId with _ | ex
    · refine ⟨db, ?_, rfl, ?_, fun _ => rfl⟩
      · simp [processEntryChange, huuid, hx]
      · intro ex hex; cases hex
    · refine ⟨(update_entry db canon userId { status := some "archived" } now).2, ?_, ?_, ?_, ?_⟩
      · simp [processEntryChange, huuid, hx]
      · simp [update_entry, hx, create_entry_version]
      · intro ex2 hex2
        cases hex2
        refine ⟨get_entry_by_id_after_update db canon userId _ now ex hx, ?_⟩
        simp [update_entry, hx, create_entry_version]
      · intro hnone; cases hnone
  · rcases hx : get_goal_by_id db canon userId with _ | g
    · refine ⟨db, ?_, rfl, ?_, ?_⟩
      · simp [processGoalChange, huuid, hx]
      · intro g hg; cases hg
      · simp [processGoalChange, huuid, hx]
    · refine ⟨(delete_goal db canon userId true now).2, ?_, ?_, ?_, ?_⟩
      · simp [processGoalChange, huuid, hx]
      · simp [delete_goal, hx]
      · intro g2 hg2
        cases hg2
        exact get_goal_by_id_after_soft_delete db canon userId now g hx
      · have hfind2 := get_goal_by_id_after_soft_delete db canon userId now g hx
        have hidem := delete_goal_soft_idem db canon userId now g hx
        simp [processGoalChange, huuid, hfind2, hidem]

/-- Witness for C10 at the fixture database. -/
theorem sync_delete_reported_applied_soft_witness :
    (∃ db2, processEntryChange fixtureNow "2024-12-31" "user-1" (some "delete")
        (some fixtureEntryId) {} none [] fixtureDb = Except.ok (true, db2, 0))
    ∧ (∃ db3, processGoalChange fixtureNow "user-1" (some "delete")
        (some fixtureGoalId) {} none fixtureDb = Except.ok (true, db3, 0)
        ∧ processGoalChange fixtureNow "user-1" (some "delete")
            (some fixtureGoalId) {} none db3 = Except.ok (true, db3, 0)) := by
  have h1 := sync_delete_reported_applied_soft fixtureNow "2024-12-31" "user-1"
    fixtureEntryId fixtureEntryId {} none [] fixtureDb (by decide)
  have h2 := sync_delete_reported_applied_soft fixtureNow "2024-12-31" "user-1"
    fixtureGoalId fixtureGoalId {} none [] fixtureDb (by decide)
  obtain ⟨⟨db2, hdb2, _⟩, _⟩ := h1
  obtain ⟨_, ⟨db3, hdb3, _, _, hfix⟩⟩ := h2
  exact ⟨⟨db2, hdb2⟩, ⟨db3, hdb3, hfix⟩⟩

/-- Counterexample for C10 as stated: deleting the same entry twice is not
idempotent (version 3 vs 2; two snapshots vs one), and a deleted goal is
not removed from the database, only marked inactive. -/
theorem sync_delete_not_idempotent_cex :
    processEntryChange fixtureNow "2024-12-31" "user-1" (some "delete")
        (some fixtureEntryId) {} none [] fixtureDb = Except.ok (true, fixtureDeleteOnce, 0)
    ∧ processEntryChange fixtureNow "2024-12-31" "user-1" (some "delete")
        (some fixtureEntryId) {} none [] fixtureDeleteOnce =
      Except.ok (true, fixtureDeleteTwice, 0)
    ∧ fixtureDeleteOnce ≠ fixtureDeleteTwice
    ∧ (get_entry_by_id fixtureDeleteOnce fixtureEntryId "user-1").map EntryRow.version = some 2
    ∧ (get_entry_by_id fixtureDeleteTwice fixtureEntryId "user-1").map EntryRow.version = some 3
    ∧ fixtureDeleteOnce.entryVersions.length = 1
    ∧ fixtureDeleteTwice.entryVersions.length = 2
    ∧ processGoalChange fixtureNow "user-1" (some "delete") (some fixtureGoalId)
        {} none fixtureDb = Except.ok (true, fixtureGoalDel, 0)
    ∧ fixtureGoalDel.goals.length = 1
    ∧ (get_goal_by_id fixtureGoalDel fixtureGoalId "user-1").map GoalRow.active = some false := by
  refine ⟨by decide, by decide, by decide, by decide, by decide, by decide, by decide,
    by decide, by decide, by decide⟩

/-! ## String comparison versus timestamp comparison (C4) -/

lemma digitChar_lt_iff (u v : Nat) (hu : u < 10) (hv : v < 10) :
    digitChar u < digitChar v ↔ u < v := by
  interval_cases u <;> interval_cases v <;> decide

lemma digitChar_inj_iff (u v : Nat) (hu : u < 10) (hv : v < 10) :
    digitChar u = digitChar v ↔ u = v := by
  interval_cases u <;> interval_cases v <;> decide

lemma digitChar_mod (a : Nat) : digitChar (a % 10) = digitChar a := by
  simp [digitChar, Nat.mod_mod]

lemma lexLt_self (l : List Char) : lexLt l l = false := by
  induction l with
  | nil => rfl
  | cons a t ih => simp [lexLt, lt_irrefl, ih]

lemma lexLt_cons_same (c : Char) (x y : List Char) :
    lexLt (c :: x) (c :: y) = lexLt x y := by
  simp [lexLt, lt_irrefl]

lemma lexLt_append_eqlen (l1 : List Char) :
    ∀ (l2 r1 r2 : List Char), l1.length = l2.length →
      lexLt (l1 ++ r1) (l2 ++ r2) = (lexLt l1 l2 || (decide (l1 = l2) && lexLt r1 r2)) := by
  induction l1 with
  | nil =>
    intro l2 r1 r2 h
    cases l2 with
    | nil => simp [lexLt]
    | cons b s => simp at h
  | cons a t ih =>
    intro l2 r1 r2 h
    cases l2 with
    | nil => simp at h
    | cons b s =>
      have hlen : t.length = s.length := by simpa using h
      by_cases hab : a < b
      · simp [lexLt, hab]
      · by_cases hba : b < a
        · have hne : a ≠ b := by rintro rfl; exact lt_irrefl a hba
          simp [lexLt, hab, hba, hne]
        · have heq : a = b := le_antisymm (not_lt.mp hba) (not_lt.mp hab)
          subst heq
          simp [lexLt, lt_irrefl, ih s r1 r2 hlen]

lemma pad2_lt_iff (a b : Nat) (ha : a < 100) (hb : b < 100) :
    lexLt (pad2 a) (pad2 b) = decide (a < b) := by
  have h1 : a / 10 < 10 := by omega
  have h2 : b / 10 < 10 := by omega
  have h3 : a % 10 < 10 := by omega
  have h4 : b % 10 < 10 := by omega
  simp only [pad2, lexLt, ← digitChar_mod a, ← digitChar_mod b]
  by_cases hd1 : a / 10 < b / 10
  · rw [if_pos ((digitChar_lt_iff _ _ h1 h2).mpr hd1)]
    have : a < b := by omega
    simp [this]
  · rw [if_neg (fun hcl => hd1 ((digitChar_lt_iff _ _ h1 h2).mp hcl))]
    by_cases hd2 : b / 10 < a / 10
    · rw [if_pos ((digitChar_lt_iff _ _ h2 h1).mpr hd2)]
      have : ¬ a < b := by omega
      simp [this]
    · rw [if_neg (fun hcl => hd2 ((digitChar_lt_iff _ _ h2 h1).mp hcl))]
      have hdeq : a / 10 = b / 10 := by omega
      by_cases hm1 : a % 10 < b % 10
      · rw [if_pos ((digitChar_lt_iff _ _ h3 h4).mpr hm1)]
        have : a < b := by omega
        simp [this]
      · rw [if_neg (fun hcl => hm1 ((digitChar_lt_iff _ _ h3 h4).mp hcl))]
        by_cases hm2 : b % 10 < a % 10
        · rw [if_pos ((digitChar_lt_iff _ _ h4 h3).mpr hm2)]
          have : ¬ a < b := by omega
          simp [this]
        · rw [if_neg (fun hcl => hm2 ((digitChar_lt_iff _ _ h4 h3).mp hcl))]
          have : ¬ a < b := by omega
          simp [lexLt, this]

lemma pad2_inj_iff (a b : Nat) (ha : a < 100) (hb : b < 100) :
    pad2 a = pad2 b ↔ a = b := by
  constructor
  · intro h
    simp only [pad2, ← digitChar_mod a, ← digitChar_mod b, List.cons.injEq, and_true] at h
    obtain ⟨h5, h6⟩ := h
    have e1 := (digitChar_inj_iff _ _ (by omega) (by omega)).mp h5
    have e2 := (digitChar_inj_iff _ _ (by omega) (by omega)).mp h6
    omega
  · rintro rfl; rfl

lemma pad4_lt_iff (a b : Nat) (ha : a < 10000) (hb : b < 10000) :
    lexLt (pad4 a) (pad4 b) = decide (a < b) := by
  simp only [pad4]
  rw [lexLt_append_eqlen (pad2 (a / 100)) (pad2 (b / 100)) (pad2 (a % 100))
      (pad2 (b % 100)) (by rfl)]
  rw [pad2_lt_iff _ _ (by omega) (by omega), pad2_lt_iff _ _ (by omega) (by omega)]
  by_cases h1 : a / 100 < b / 100
  · have : a < b := by omega
    simp [h1, this]
  · by_cases h2 : a / 100 = b / 100
    · have hp2 : pad2 (a / 100) = pad2 (b / 100) :=
        (pad2_inj_iff _ _ (by omega) (by omega)).mpr h2
      have he2 : decide (a % 100 < b % 100) = decide (a < b) := by
        by_cases hx : a % 100 < b % 100
        · have hab : a < b := by omega
          simp [hx, hab]
        · have hab : ¬ a < b := by omega
          simp [hx, hab]
      simp [hp2, h1, he2]
    · have hne : pad2 (a / 100) ≠ pad2 (b / 100) :=
        fun hc => h2 ((pad2_inj_iff _ _ (by omega) (by omega)).mp hc)
      have : ¬ a < b := by omega
      simp [h1, hne, this]

lemma pad4_inj_iff (a b : Nat) (ha : a < 10000) (hb : b < 10000) :
    pad4 a = pad4 b ↔ a = b := by
  constructor
  · intro h
    simp only [pad4] at h
    have hlen : (pad2 (a / 100)).length = (pad2 (b / 100)).length := rfl
    have := List.append_inj h hlen
    obtain ⟨hh, ht⟩ := this
    have e1 := (pad2_inj_iff _ _ (by omega) (by omega)).mp hh
    have e2 := (pad2_inj_iff _ _ (by omega) (by omega)).mp ht
    omega
  · rintro rfl; rfl

lemma isoChars_canonical (dt : PyDatetime) (hu : dt.microsecond = 0) (ho : dt.utcoffset = some 0) :
    isoChars dt =
      pad4 dt.year ++ '-' :: (pad2 dt.month ++ '-' :: (pad2 dt.day
        ++ 'T' :: (pad2 dt.hour ++ ':' :: (pad2 dt.minute
        ++ ':' :: (pad2 dt.second ++ isoOffsetChars 0))))) := by
  simp [isoChars, isoCoreChars, hu, ho, List.append_assoc]

lemma decide_pad4_eq (a b : Nat) (ha : a < 10000) (hb : b < 10000) :
    decide (pad4 a = pad4 b) = decide (a = b) :=
  decide_eq_decide.mpr (pad4_inj_iff a b ha hb)

lemma decide_pad2_eq (a b : Nat) (ha : a < 100) (hb : b < 100) :
    decide (pad2 a = pad2 b) = decide (a = b) :=
  decide_eq_decide.mpr (pad2_inj_iff a b ha hb)

lemma isoChars_lexLt (a b : PyDatetime) (hab : isoFieldsBounded a) (hbb : isoFieldsBounded b)
    (hao : a.utcoffset = some 0) (hbo : b.utcoffset = some 0)
    (hau : a.microsecond = 0) (hbu : b.microsecond = 0) :
    lexLt (isoChars a) (isoChars b) = fieldsCmpLt a b := by
  obtain ⟨ha1, ha2, ha3, ha4, ha5, ha6⟩ := hab
  obtain ⟨hb1, hb2, hb3, hb4, hb5, hb6⟩ := hbb
  rw [isoChars_canonical a hau hao, isoChars_canonical b hbu hbo]
  rw [lexLt_append_eqlen (pad4 a.year) (pad4 b.year) _ _ (by rfl)]
  rw [pad4_lt_iff _ _ ha1 hb1, decide_pad4_eq _ _ ha1 hb1, lexLt_cons_same]
  rw [lexLt_append_eqlen (pad2 a.month) (pad2 b.month) _ _ (by rfl)]
  rw [pad2_lt_iff _ _ ha2 hb2, decide_pad2_eq _ _ ha2 hb2, lexLt_cons_same]
  rw [lexLt_append_eqlen (pad2 a.day) (pad2 b.day) _ _ (by rfl)]
  rw [pad2_lt_iff _ _ ha3 hb3, decide_pad2_eq _ _ ha3 hb3, lexLt_cons_same]
  rw [lexLt_append_eqlen (pad2 a.hour) (pad2 b.hour) _ _ (by rfl)]
  rw [pad2_lt_iff _ _ ha4 hb4, decide_pad2_eq _ _ ha4 hb4, lexLt_cons_same]
  rw [lexLt_append_eqlen (pad2 a.minute) (pad2 b.minute) _ _ (by rfl)]
  rw [pad2_lt_iff _ _ ha5 hb5, decide_pad2_eq _ _ ha5 hb5, lexLt_cons_same]
  rw [lexLt_append_eqlen (pad2 a.second) (pad2 b.second) _ _ (by rfl)]
  rw [pad2_lt_iff _ _ ha6 hb6, decide_pad2_eq _ _ ha6 hb6, lexLt_self]
  simp only [fieldsCmpLt, hau, hbu]
  by_cases e1 : a.year = b.year
  · simp only [e1, lt_self_iff_false, ne_eq, not_true_eq_false,
      Bool.false_or, Bool.true_and, if_false, reduceIte]
    by_cases e2 : a.month = b.month
    · simp only [e2, lt_self_iff_false, ne_eq, not_true_eq_false,
        Bool.false_or, Bool.true_and, if_false, reduceIte]
      by_cases e3 : a.day = b.day
      · simp only [e3, lt_self_iff_false, ne_eq, not_true_eq_false,
          Bool.false_or, Bool.true_and, if_false, reduceIte]
        by_cases e4 : a.hour = b.hour
        · simp only [e4, lt_self_iff_false, ne_eq, not_true_eq_false,
            Bool.false_or, Bool.true_and, if_false, reduceIte]
          by_cases e5 : a.minute = b.minute
          · simp only [e5, lt_self_iff_false, ne_eq, not_true_eq_false,
              Bool.false_or, Bool.true_and, if_false, reduceIte]
            by_cases e6 : a.second = b.second
            · simp [e6]
            · simp [e6]
          · simp [e5]
        · simp [e4]
      · simp [e3]
    · simp [e2]
  · simp [e1]

/-- C4 (amended): the sync timestamp comparison agrees with the
lexicographic string comparison c >= to_iso_string(s) exactly on canonical
inputs: when the client string is the canonical UTC rendering of its parsed
value (whole-second, +00:00 offset) and the server datetime is naive and
whole-second, compare_timestamps(c, s) equals the code point comparison of
the two strings. -/
theorem compare_timestamps_lex_on_canonical
    (c : String) (cdt sdt : PyDatetime)
    (hparse : parse_iso_timestamp c = Except.ok cdt)
    (hcanon : c = cdt.isoformat)
    (hco : cdt.utcoffset = some 0) (hcu : cdt.microsecond = 0)
    (hcb : isoFieldsBounded cdt)
    (hso : sdt.utcoffset = none) (hsu : sdt.microsecond = 0)
    (hsb : isoFieldsBounded sdt) :
    compare_timestamps (some c) sdt = pyStrGe c (toIsoStringSome sdt) := by
  have hle := compare_timestamps_parsed c cdt sdt hparse
  rw [hle]
  have hsrv : serverUtcOf sdt = { sdt with utcoffset := some 0 } := by
    simp [serverUtcOf, hso]
  rw [hsrv]
  have hpg : cdt.pyGe { sdt with utcoffset := some 0 } =
      !(fieldsCmpLt cdt { sdt with utcoffset := some 0 }) := by
    simp [PyDatetime.pyGe, PyDatetime.pyLe, hco]
  have hto : toIsoStringSome sdt = PyDatetime.isoformat { sdt with utcoffset := some 0 } := by
    simp [toIsoStringSome, hso, astimezoneUTC]
  have hcdata : c.data = isoChars cdt := by rw [hcanon]; rfl
  rw [hpg, hto]
  simp only [pyStrGe, hcdata, PyDatetime.isoformat]
  rw [isoChars_lexLt cdt { sdt with utcoffset := some 0 } hcb hsb hco rfl hcu hsu]

/-- Witness for C4 at a canonical client string one second after the
server. -/
theorem compare_timestamps_lex_on_canonical_witness :
    compare_timestamps (some "2025-01-02T03:04:05+00:00")
        { year := 2025, month := 1, day := 2, hour := 3, minute := 4, second := 4 } =
      pyStrGe "2025-01-02T03:04:05+00:00"
        (toIsoStringSome { year := 2025, month := 1, day := 2, hour := 3, minute := 4, second := 4 }) := by
  exact compare_timestamps_lex_on_canonical "2025-01-02T03:04:05+00:00"
    { year := 2025, month := 1, day := 2, hour := 3, minute := 4, second := 5,
      utcoffset := some 0 }
    { year := 2025, month := 1, day := 2, hour := 3, minute := 4, second := 4 }
    (by decide) (by decide) rfl rfl
    (by exact ⟨by decide, by decide, by decide, by decide, by decide, by decide⟩) rfl rfl
    (by exact ⟨by decide, by decide, by decide, by decide, by decide, by decide⟩)

/-- Counterexample for C4 as stated: for the parseable client timestamp
2024-12-30T12:00:00+05:00 (07:00 UTC) and server 2024-12-30 08:00:00,
compare_timestamps is False (server newer) while the lexicographic string
comparison against to_iso_string is True — the comparison is on parsed
datetimes, not on strings. -/
theorem compare_timestamps_not_string_compare :
    compare_timestamps (some fixtureOffsetTs) fixtureT0 = false
    ∧ pyStrGe fixtureOffsetTs (toIsoStringSome fixtureT0) = true
    ∧ compare_timestamps (some fixtureOffsetTs) fixtureT0 ≠
        pyStrGe fixtureOffsetTs (toIsoStringSome fixtureT0) := by
  refine ⟨by decide, by decide, by decide⟩

end Cognito
